import Mathlib

/-!
# Verification of the infiniproxy translation and backend-resolution engine

A shallow embedding of the core of the `infiniproxy` gateway:

* the backend registry (`backend_manager.py`),
* the model resolver (`resolve_backend_and_model` in `proxy_server.py`),
* the protocol translator (`translator.py`),
* the resilient completion invoker of the `/v1/messages` endpoint
  (`create_message` in `proxy_server.py`), both non-streaming and streaming.

Python dictionaries are embedded as Lean structures with `Option` fields for
keys read via `.get`; Python string truthiness (`None` and `""` are falsy) is
made explicit by small helpers.  Backend calls are modelled as oracle
functions passed to the invoker; the invoker additionally returns the trace of
requests it issued so that retry counting becomes provable.
-/

namespace Infiniproxy

/-- Emptiness of a string, computed on its character list. -/
def strIsEmpty (s : String) : Bool :=
  s.data.isEmpty

/-- Python `c in s` character-membership test. -/
def strContainsChar (s : String) (c : Char) : Bool :=
  s.data.contains c

/-- Python `s.lower()` (ASCII case folding suffices for the vocabulary the
classifiers look for). -/
def strLower (s : String) : String :=
  String.mk (s.data.map Char.toLower)

/-- Python `s.strip()`: drop leading and trailing whitespace. -/
def pyStrip (s : String) : String :=
  String.mk (((s.data.dropWhile Char.isWhitespace).reverse.dropWhile Char.isWhitespace).reverse)

/-- Contiguous-sublist test on character lists. -/
def charsContain (needle : List Char) : List Char → Bool
  | [] => needle.isEmpty
  | c :: rest => needle.isPrefixOf (c :: rest) || charsContain needle rest

/-- Python `needle in hay` substring test. -/
def strContainsSub (hay needle : String) : Bool :=
  charsContain needle.data hay.data

/-- Python `a or b` for an optional string `a` (both `None` and `""` are falsy). -/
def strOr (a : Option String) (b : String) : String :=
  match a with
  | none => b
  | some s => if strIsEmpty s then b else s

/-- Python truthiness of an optional string (`None` and `""` are falsy). -/
def pyStrTruthy (a : Option String) : Bool :=
  match a with
  | none => false
  | some s => !strIsEmpty s

/-- Python `s.split('/', 1)`: split at the first `'/'` only, returning the
part before it and everything after it.  (Callers only use this under the
guard `'/' in s`, where the result always has two components.) -/
def splitSlashOnce (s : String) : String × String :=
  (String.mk (s.data.takeWhile (fun c => c != '/')),
   String.mk ((s.data.dropWhile (fun c => c != '/')).drop 1))

/-! ## Data model: backends, configuration, callers -/

/-- A row of the `backend_services` table (`backend_manager.py`). -/
structure Backend where
  id : Nat
  short_name : String
  name : String
  base_url : String
  api_key : String
  default_model : Option String
  is_active : Bool
  is_default : Bool
deriving DecidableEq, Repr

/-- The global proxy configuration (`config.py` fields used by the core). -/
structure ProxyConfig where
  openai_base_url : String
  openai_api_key : String
  openai_model : String
  timeout : Nat
  max_output_tokens : Int
deriving DecidableEq, Repr

/-- Authenticated caller information (`user_manager.validate_api_key` result):
the api key row id and the per-key model setting. `api_key_id = some 0` is
falsy in Python, hence treated like an absent id by the resolver. -/
structure UserInfo where
  api_key_id : Option Nat
  model_name : Option String
deriving DecidableEq, Repr

/-- The persistent state read by the registry: the `backend_services` rows in
insertion (id-ascending) order, and the `api_keys.backend_id` association
(api key id paired with its preferred backend id, rows with a NULL
`backend_id` omitted). -/
structure Registry where
  backends : List Backend
  api_key_backend : List (Nat × Nat)
deriving DecidableEq, Repr

/-- `BackendManager.get_backend_by_short_name`: the backend with the given
short name, active rows only. -/
def get_backend_by_short_name (reg : Registry) (short_name : String) : Option Backend :=
  reg.backends.find? (fun b => b.short_name == short_name && b.is_active)

/-- Least-id active backend (the `ORDER BY id ASC LIMIT 1` query). -/
def minIdActiveBackend (reg : Registry) : Option Backend :=
  (reg.backends.filter (fun b => b.is_active)).foldl
    (fun acc b =>
      match acc with
      | none => some b
      | some a => if b.id < a.id then some b else some a) none

/-- `BackendManager.get_default_backend`: the active backend flagged default,
else the active backend with the least id. -/
def get_default_backend (reg : Registry) : Option Backend :=
  match reg.backends.find? (fun b => b.is_default && b.is_active) with
  | some b => some b
  | none => minIdActiveBackend reg

/-- `BackendManager.get_user_backend`: join of `api_keys` with
`backend_services`, active backends only. -/
def get_user_backend (reg : Registry) (api_key_id : Nat) : Option Backend :=
  match reg.api_key_backend.lookup api_key_id with
  | none => none
  | some bid => reg.backends.find? (fun b => b.id == bid && b.is_active)

/-! ## Model resolver (`resolve_backend_and_model`, `proxy_server.py`) -/

/-- The shape of the backend value returned by the resolver: the fields of
the backend dictionary actually consumed downstream (the empty-registry
fallback path returns a dictionary carrying exactly these keys). -/
structure RBackend where
  short_name : String
  base_url : String
  api_key : String
  default_model : Option String
deriving DecidableEq, Repr

/-- Projection of a registry backend row onto the resolver result shape. -/
def Backend.toR (b : Backend) : RBackend :=
  ⟨b.short_name, b.base_url, b.api_key, b.default_model⟩

/-- Which `OpenAIClient` the resolver hands back: the process-global client,
or a freshly constructed one for a differently configured backend. -/
inductive ClientRef where
  | global_client
  | fresh_client (base_url api_key : String) (timeout : Nat)
deriving DecidableEq, Repr

/-- An `HTTPException` raised to the caller. -/
structure HErr where
  status : Nat
  detail : String
deriving DecidableEq, Repr

/-- The statically configured fallback backend dictionary returned when no
backend service rows exist (`resolve_backend_and_model`, "no backend
configured" branch). -/
def fallbackBackend (config : ProxyConfig) : RBackend :=
  ⟨"default", config.openai_base_url, config.openai_api_key, some config.openai_model⟩

/-- Client selection at the end of `resolve_backend_and_model`: reuse the
global client iff base URL and key coincide with the global configuration. -/
def clientFor (config : ProxyConfig) (b : Backend) : ClientRef :=
  if b.base_url == config.openai_base_url && b.api_key == config.openai_api_key then
    ClientRef.global_client
  else
    ClientRef.fresh_client b.base_url b.api_key config.timeout

/-- The final `if not resolved_model:` fill-in of `resolve_backend_and_model`:
an absent or empty model name becomes the backend's `default_model`, else the
system-wide default model. -/
def resolveModelFor (config : ProxyConfig) (b : Backend) (resolved : Option String) : String :=
  if pyStrTruthy resolved then resolved.getD "" else strOr b.default_model config.openai_model

/-- `resolve_backend_and_model` (`proxy_server.py`): decides the backend, the
concrete model name, and the client, for a caller-supplied optional model
string and the authenticated caller. -/
def resolve_backend_and_model (reg : Registry) (config : ProxyConfig)
    (model_name : Option String) (user_info : UserInfo) :
    Except HErr (RBackend × String × ClientRef) :=
  if pyStrTruthy model_name && strContainsChar (model_name.getD "") '/' then
    -- "backend/model" addressing: left side must be an active backend
    let p := splitSlashOnce (model_name.getD "")
    match get_backend_by_short_name reg p.1 with
    | none => .error ⟨400, "Backend '" ++ p.1 ++ "' not found or inactive"⟩
    | some b => .ok (b.toR, resolveModelFor config b (some p.2), clientFor config b)
  else
    -- caller's stored backend preference, when the api key id is truthy
    let pref : Option Backend :=
      if (user_info.api_key_id.getD 0) != 0 then
        get_user_backend reg (user_info.api_key_id.getD 0)
      else none
    match pref with
    | some b => .ok (b.toR, resolveModelFor config b model_name, clientFor config b)
    | none =>
      match get_default_backend reg with
      | some b => .ok (b.toR, resolveModelFor config b model_name, clientFor config b)
      | none =>
        -- no backend services configured: static single-backend fallback
        .ok (fallbackBackend config, strOr model_name config.openai_model,
             ClientRef.global_client)

/-! ## Protocol translator (`translator.py`): wire-format values -/

/-- An uninterpreted JSON payload carried verbatim by the translator (tool
parameter schemas and decoded tool arguments).  `emptyObj` is the `{}` value
substituted for unparseable tool-argument strings. -/
inductive JsonVal where
  | emptyObj
  | payload (s : String)
deriving DecidableEq, Repr

mutual
/-- The content of a `tool_result` block: a plain string, a list of content
blocks, or the `str(...)` rendering of any other value. -/
inductive TRContent where
  | str : String → TRContent
  | blocks : List CBlock → TRContent
  | otherRepr : String → TRContent

/-- A vendor-A content block, embedded as its dictionary fields read via
`.get`: the `type` tag, `text`, `tool_use_id` and `content` keys. -/
inductive CBlock where
  | mk : (btype : Option String) → (text : Option String) →
         (tool_use_id : Option String) → (content : Option TRContent) → CBlock
end

/-- The `type` tag of a content block (`block.get("type")`). -/
def CBlock.btype : CBlock → Option String
  | .mk t _ _ _ => t

/-- The `text` field of a content block. -/
def CBlock.text : CBlock → Option String
  | .mk _ t _ _ => t

/-- The `tool_use_id` field of a content block. -/
def CBlock.tool_use_id : CBlock → Option String
  | .mk _ _ i _ => i

/-- The `content` field of a content block (tool results). -/
def CBlock.content : CBlock → Option TRContent
  | .mk _ _ _ c => c

/-- Message content: a plain string or a list of typed content blocks. -/
inductive CContent where
  | str : String → CContent
  | blocks : List CBlock → CContent

/-- A vendor-A message turn. -/
structure CMessage where
  role : String
  content : CContent

/-- A vendor-A tool declaration (name, description, input schema). -/
structure CTool where
  name : Option String
  description : Option String
  input_schema : Option JsonVal
deriving DecidableEq, Repr

/-- A vendor-A (`/v1/messages`) request, fields read by the translator and
the endpoint; `Option` marks keys tested with `in` / read with `.get`. -/
structure ClaudeRequest where
  model : Option String := none
  max_tokens : Option Int := none
  system : Option CContent := none
  messages : List CMessage := []
  tools : Option (List CTool) := none
  temperature : Option Int := none
  top_p : Option Int := none
  stop_sequences : Option (List String) := none
  stream : Option Bool := none

/-- A vendor-B chat message as built by the translator: `role`, flattened
string `content`, and (for role `"tool"` only) a `tool_call_id`. -/
structure OMsg where
  role : String
  content : String
  tool_call_id : Option String := none
deriving DecidableEq, Repr

/-- The `function` member of a vendor-B tool declaration. -/
structure OFuncDecl where
  name : Option String
  description : String
  parameters : JsonVal
deriving DecidableEq, Repr

/-- A vendor-B tool declaration: `{"type": "function", "function": {...}}`. -/
structure OTool where
  ty : String
  function : OFuncDecl
deriving DecidableEq, Repr

/-- The outbound vendor-B (`chat/completions`) request. -/
structure OaiRequest where
  model : String
  messages : List OMsg
  tools : Option (List OTool) := none
  max_tokens : Int
  temperature : Option Int := none
  top_p : Option Int := none
  stream : Bool
  stop : Option (List String) := none
deriving DecidableEq, Repr

/-- The translator's configuration (`APITranslator.__init__`). -/
structure APITranslator where
  openai_model : String
  max_input_tokens : Int := 409600
  max_output_tokens : Int := 409600
deriving DecidableEq, Repr

/-! ## Protocol translator: request direction (A to B) -/

/-- `APITranslator._extract_text_from_content_blocks`: texts of the
`"text"`-typed blocks, joined with newline; other block types are dropped. -/
def extract_text_from_content_blocks (content_blocks : List CBlock) : String :=
  String.intercalate "\n"
    ((content_blocks.filter (fun b => b.btype == some "text")).map (fun b => b.text.getD ""))

/-- Flattening of string-or-blocks content (the `isinstance` dispatch used
for the `system` field and for plain messages). -/
def flattenContent : CContent → String
  | .str s => s
  | .blocks bs => extract_text_from_content_blocks bs

/-- `APITranslator._extract_tool_result_content`. -/
def extract_tool_result_content : TRContent → String
  | .str s => s
  | .blocks bs => extract_text_from_content_blocks bs
  | .otherRepr s => s

/-- `APITranslator._convert_message_to_openai`, returned uniformly as the
list of outbound messages (the Python function packages a one-element list
as a bare dictionary and the caller re-flattens; the resulting outbound
message sequence is identical). -/
def convert_message_to_openai (claude_message : CMessage) : List OMsg :=
  match claude_message.content with
  | .str s => [⟨claude_message.role, s, none⟩]
  | .blocks content =>
    let tool_results := content.filter (fun b => b.btype == some "tool_result")
    if tool_results.isEmpty then
      [⟨claude_message.role, extract_text_from_content_blocks content, none⟩]
    else
      let text_blocks := content.filter (fun b => b.btype == some "text")
      let toolMsgs := tool_results.map (fun tr =>
        OMsg.mk "tool" (extract_tool_result_content (tr.content.getD (.str ""))) tr.tool_use_id)
      let text_content := String.intercalate "\n" (text_blocks.map (fun b => b.text.getD ""))
      let userMsgs :=
        if text_blocks.isEmpty then []
        else if strIsEmpty (pyStrip text_content) then []
        else [OMsg.mk "user" text_content none]
      toolMsgs ++ userMsgs

/-- `APITranslator._translate_tools_to_openai`. -/
def translate_tools_to_openai (claude_tools : List CTool) : List OTool :=
  claude_tools.map (fun t =>
    ⟨"function", ⟨t.name, t.description.getD "", t.input_schema.getD JsonVal.emptyObj⟩⟩)

/-- `APITranslator.translate_request_to_openai`. -/
def translate_request_to_openai (tr : APITranslator) (claude_request : ClaudeRequest) :
    OaiRequest :=
  let sysMsgs : List OMsg :=
    match claude_request.system with
    | none => []
    | some sc => [⟨"system", flattenContent sc, none⟩]
  { model := tr.openai_model
    messages := sysMsgs ++ (claude_request.messages.map convert_message_to_openai).flatten
    tools := claude_request.tools.map translate_tools_to_openai
    max_tokens :=
      match claude_request.max_tokens with
      | some mt => min mt tr.max_output_tokens
      | none => tr.max_output_tokens
    temperature := claude_request.temperature
    top_p := claude_request.top_p
    stream := false  -- the translator always forces non-streaming
    stop := claude_request.stop_sequences }

/-! ## Protocol translator: response direction (B to A) -/

/-- The `function` member of a backend tool call. -/
structure OToolCallFunction where
  name : Option String := none
  arguments : Option String := none
deriving DecidableEq, Repr

/-- A backend tool call entry. -/
structure OToolCall where
  ty : Option String := none
  id : Option String := none
  function : Option OToolCallFunction := none
deriving DecidableEq, Repr

/-- The `message` member of a backend completion choice. -/
structure OChoiceMessage where
  content : Option String := none
  reasoning_content : Option String := none
  tool_calls : Option (List OToolCall) := none
deriving DecidableEq, Repr

/-- A backend completion choice. -/
structure OChoice where
  message : Option OChoiceMessage := none
  finish_reason : Option String := none
deriving DecidableEq, Repr

/-- The backend usage object. -/
structure OUsage where
  prompt_tokens : Option Int := none
  completion_tokens : Option Int := none
deriving DecidableEq, Repr

/-- A vendor-B chat-completion response, fields read by the translator. -/
structure OaiResponse where
  id : Option String := none
  choices : Option (List OChoice) := none
  usage : Option OUsage := none
deriving DecidableEq, Repr

/-- A content block of the translated vendor-A response. -/
inductive CRespBlock where
  | text (t : String)
  | tool_use (id : Option String) (name : Option String) (input : JsonVal)
deriving DecidableEq, Repr

/-- The vendor-A usage object. -/
structure CUsage where
  input_tokens : Int
  output_tokens : Int
deriving DecidableEq, Repr

/-- The translated vendor-A response. -/
structure ClaudeResponse where
  id : String
  ty : String
  role : String
  content : List CRespBlock
  model : String
  stop_reason : String
  usage : Option CUsage := none
deriving DecidableEq, Repr

/-- The fixed `finish_reason` dictionary of `APITranslator._map_finish_reason`. -/
def finish_reason_mapping : List (String × String) :=
  [("stop", "end_turn"),
   ("length", "max_tokens"),
   ("content_filter", "content_filtered"),
   ("tool_calls", "tool_use"),
   ("function_call", "tool_use")]

/-- `APITranslator._map_finish_reason`: `mapping.get(reason, "end_turn")`
(an absent reason is `None`, which is not a key of the dictionary). -/
def map_finish_reason (openai_finish_reason : Option String) : String :=
  match openai_finish_reason with
  | none => "end_turn"
  | some r => (finish_reason_mapping.lookup r).getD "end_turn"

/-- `APITranslator.translate_response_to_claude`.

`json_loads` is the `json.loads` oracle (`none` models a `JSONDecodeError`);
`fresh_id` is the freshly generated `msg_<uuid>` used when the backend
response has no `id`.  The result is `none` exactly when the Python code
raises: indexing `[0]` on a present-but-empty `choices` list. -/
def translate_response_to_claude (json_loads : String → Option JsonVal)
    (tr : APITranslator) (openai_response : OaiResponse)
    (original_model : Option String) (fresh_id : String) : Option ClaudeResponse :=
  match openai_response.choices.getD [{}] with
  | [] => none  -- IndexError: `.get("choices", [{}])[0]` on an empty list
  | choice :: _ =>
    let message := choice.message.getD {}
    let reasoning_content := message.reasoning_content.getD ""
    let content_text :=
      if strIsEmpty reasoning_content then message.content.getD ""
      else "[Reasoning]\n" ++ reasoning_content ++ "\n\n[Response]\n" ++ message.content.getD ""
    let textBlocks : List CRespBlock :=
      if strIsEmpty content_text then [] else [.text content_text]
    let tool_calls := message.tool_calls.getD []
    let toolBlocks : List CRespBlock := tool_calls.filterMap (fun tc =>
      if tc.ty == some "function" then
        let fn := tc.function.getD {}
        let arguments :=
          match json_loads (fn.arguments.getD "\x7b\x7d") with
          | some v => v
          | none => JsonVal.emptyObj  -- malformed arguments degrade to `{}`
        some (CRespBlock.tool_use tc.id fn.name arguments)
      else none)
    some
      { id := openai_response.id.getD fresh_id
        ty := "message"
        role := "assistant"
        content := textBlocks ++ toolBlocks
        model := strOr original_model tr.openai_model
        stop_reason := map_finish_reason choice.finish_reason
        usage := openai_response.usage.map (fun u =>
          ⟨u.prompt_tokens.getD 0, u.completion_tokens.getD 0⟩) }

/-! ## The `/v1/messages` endpoint (`create_message`, `proxy_server.py`) -/

/-- `client_specified_model = 'model' in claude_request` (line 761). -/
def client_specified_model (claude_request : ClaudeRequest) : Bool :=
  claude_request.model.isSome

/-- The outbound request as assembled by `create_message` before the backend
call (lines 763-776): the translator output, with the streaming flag restored
when the caller requested streaming, and the resolved model substituted. -/
def create_message_outbound (tr : APITranslator) (claude_request : ClaudeRequest)
    (resolved_model : String) : OaiRequest :=
  let o := translate_request_to_openai tr claude_request
  let o := if claude_request.stream.getD false then { o with stream := true } else o
  { o with model := resolved_model }

/-- The fallback model stored by `create_message` (line 781): the resolved
backend's `default_model`, else the global default model. -/
def create_message_fallback_model (backend : RBackend) (config : ProxyConfig) : String :=
  strOr backend.default_model config.openai_model

/-- A raised backend-call exception as inspected by the error classifiers:
its `str(e)` text and, when the exception carries a truthy `response`, that
response's body text. -/
structure BackendError where
  msg : String
  response_body : Option String := none
deriving DecidableEq, Repr

/-- The non-streaming model-error classifier of `create_message`
(lines 856-871; `chat_completions` lines 625-640 are identical): the
lowercased exception text contains `"model"` together with one of
`"not found"`, `"does not exist"`, `"invalid"`; or the lowercased response
body contains `"model"` together with one of `"not found"`,
`"does not exist"`, `"no access"`. -/
def nonstreaming_is_model_error (e : BackendError) : Bool :=
  let error_str := strLower e.msg
  let fromMsg := strContainsSub error_str "model" &&
    (strContainsSub error_str "not found" || strContainsSub error_str "does not exist" ||
     strContainsSub error_str "invalid")
  let fromBody :=
    match e.response_body with
    | none => false
    | some body =>
      let response_body := strLower body
      strContainsSub response_body "model" &&
        (strContainsSub response_body "not found" ||
         strContainsSub response_body "does not exist" ||
         strContainsSub response_body "no access")
  fromMsg || fromBody

/-- The broader streaming model-error classifier of `stream_generator`
(lines 802-822): additionally treats `"400"` / `"bad request"` /
`"attempted to access streaming response content"` exception texts as model
errors, and the response-body vocabulary also includes `"invalid"`. -/
def streaming_is_model_error (e : BackendError) : Bool :=
  let error_str := strLower e.msg
  let fromMsg :=
    (strContainsSub error_str "model" &&
      (strContainsSub error_str "not found" || strContainsSub error_str "does not exist" ||
       strContainsSub error_str "invalid")) ||
    (strContainsSub error_str "400" || strContainsSub error_str "bad request") ||
    strContainsSub error_str "attempted to access streaming response content"
  let fromBody :=
    match e.response_body with
    | none => false
    | some body =>
      let response_lower := strLower body
      strContainsSub response_lower "model" &&
        (strContainsSub response_lower "not found" ||
         strContainsSub response_lower "does not exist" ||
         strContainsSub response_lower "no access" ||
         strContainsSub response_lower "invalid")
  fromMsg || fromBody

/-- The non-streaming backend invocation of `create_message` (lines 850-879).

`call` is the backend oracle (`backend_client.create_completion`); the second
component is the trace of `(client, request)` pairs actually issued, in
order.  A failure classified as a model error (with a client-specified model)
is retried exactly once with the fallback model substituted into the same
request, through the same client; the retry's outcome, success or failure,
is returned as is.  Any other failure is re-raised after the single call. -/
def create_message_invoke (client : ClientRef)
    (call : OaiRequest → Except BackendError OaiResponse)
    (csm : Bool) (fallback_model : String) (req : OaiRequest) :
    Except BackendError OaiResponse × List (ClientRef × OaiRequest) :=
  match call req with
  | .ok resp => (.ok resp, [(client, req)])
  | .error e =>
    if csm && nonstreaming_is_model_error e then
      let retry_req := { req with model := fallback_model }
      (call retry_req, [(client, req), (client, retry_req)])
    else
      (.error e, [(client, req)])

/-- A chunk emitted by the streaming generator: a forwarded backend line
(wire form `f"{line}\n"`), a terminal SSE error event
(`data: {"error": ...}`), or the terminal event reporting that both the
specified and the fallback model failed. -/
inductive StreamChunk where
  | line (l : String)
  | errorEvent (msg : String)
  | bothFailedEvent (msg : String)
deriving DecidableEq, Repr

/-- A streaming backend call (`backend_client.create_streaming_completion`):
the lines yielded before completion, and the exception that interrupted the
stream, if any. -/
def StreamCall := OaiRequest → List String × Option BackendError

/-- The `stream_generator` of `create_message` (lines 789-839), with the
emitted chunk sequence and the trace of issued requests made explicit.
Lines of the first stream are forwarded as received; on a mid-stream failure
classified as a model error, with a client-specified model and a fallback
model differing from the failed request's model, a single retry stream is
opened and forwarded from its start (after whatever the first stream already
emitted); otherwise a terminal error event is emitted. -/
def stream_generator (scall : StreamCall) (csm : Bool) (fallback_model : String)
    (req : OaiRequest) : List StreamChunk × List OaiRequest :=
  let r1 := scall req
  let out1 := r1.1.map StreamChunk.line
  match r1.2 with
  | none => (out1, [req])
  | some e =>
    if csm && streaming_is_model_error e && req.model != fallback_model then
      let retry_req := { req with model := fallback_model }
      let r2 := scall retry_req
      let out2 := r2.1.map StreamChunk.line
      match r2.2 with
      | none => (out1 ++ out2, [req, retry_req])
      | some retry_error =>
        (out1 ++ out2 ++ [.bothFailedEvent retry_error.msg], [req, retry_req])
    else
      (out1 ++ [.errorEvent e.msg], [req])

/-- Modelled from the spec (claim wording for the model-error
classification): a failure is a model error iff the caller supplied an
explicit model name and the error text or the backend response body contains
one of the substrings "not found", "does not exist", "invalid", "no access",
case-insensitively.  Stated for comparison with the source classifier
`nonstreaming_is_model_error`. -/
def claimed_model_error (csm : Bool) (e : BackendError) : Bool :=
  let vocab := fun (s : String) =>
    let l := strLower s
    strContainsSub l "not found" || strContainsSub l "does not exist" ||
    strContainsSub l "invalid" || strContainsSub l "no access"
  csm && (vocab e.msg ||
    (match e.response_body with
     | none => false
     | some body => vocab body))

/-- A message turn carrying only plain text: its content is a plain string
or a list of content blocks all typed `"text"`. -/
def pureTextMsg (m : CMessage) : Bool :=
  match m.content with
  | .str _ => true
  | .blocks bs => bs.all (fun b => b.btype == some "text")

/-- The non-streaming model-error classification as the amended claim words
it: the lowercased error text contains "model" together with one of
"not found" / "does not exist" / "invalid", or the lowercased backend
response body contains "model" together with one of "not found" /
"does not exist" / "no access".  Stated for comparison with the source
classifier `nonstreaming_is_model_error`. -/
def amended_model_error (e : BackendError) : Bool :=
  let textSide :=
    let t := strLower e.msg
    strContainsSub t "model" &&
      (strContainsSub t "not found" || strContainsSub t "does not exist" ||
       strContainsSub t "invalid")
  let bodySide :=
    match e.response_body with
    | none => false
    | some body =>
      let b := strLower body
      strContainsSub b "model" &&
        (strContainsSub b "not found" || strContainsSub b "does not exist" ||
         strContainsSub b "no access")
  textSide || bodySide

/-! ## Concrete fixtures used by witnesses and counterexamples -/

/-- Fixture translator configuration. -/
def trM : APITranslator := ⟨"m", 409600, 409600⟩

/-- Fixture outbound request. -/
def reqM : OaiRequest := ⟨"mX", [], none, 100, none, none, false, none⟩

/-- Fixture: active backend "acme", id 1, default model "am". -/
def C1acme : Backend :=
  ⟨1, "acme", "Acme", "http://a", "ka", some "am", true, false⟩

/-- Fixture: active default backend "zhipu", id 2, default model "glm". -/
def C1zhipu : Backend :=
  ⟨2, "zhipu", "Zhipu", "http://z", "kz", some "glm", true, true⟩

/-- Fixture registry: both backends; api key 5 prefers backend 2. -/
def C1reg : Registry := ⟨[C1acme, C1zhipu], [(5, 2)]⟩

/-- Fixture global configuration. -/
def C1cfg : ProxyConfig := ⟨"http://g", "kg", "gm", 300, 409600⟩

/-- Fixture caller: api key id 5 and no per-key model. -/
def C1user : UserInfo := ⟨some 5, none⟩

/-- Fixture: a streaming failure whose text names a missing model. -/
def C2err : BackendError := ⟨"model m not found", none⟩

/-- Fixture: a streaming call that fails immediately with `C2err`. -/
def C2scall : StreamCall := fun _ => ([], some C2err)

/-- Fixture: an outbound streaming request for model "m". -/
def C2req : OaiRequest := ⟨"m", [], none, 100, none, none, true, none⟩

/-- Fixture: the resolved backend for the C2 witness, default model "fbm". -/
def C2backend : RBackend := ⟨"b", "http://b", "kb", some "fbm"⟩

/-- Fixture configuration for the C2 witness. -/
def C2cfg : ProxyConfig := ⟨"http://g", "kg", "gm", 300, 409600⟩

/-- Fixture: a non-streaming failure naming a missing model. -/
def C2errNS : BackendError := ⟨"model bad not found", none⟩

/-- Fixture: a non-streaming call failing with `C2errNS` on model "bad". -/
def C2call : OaiRequest → Except BackendError OaiResponse := fun r =>
  if r.model = "bad" then .error C2errNS else .ok {}

/-- Fixture: an outbound request for the failing model "bad". -/
def C2reqBad : OaiRequest := ⟨"bad", [], none, 100, none, none, false, none⟩

/-- Fixture: a streaming call failing with `C2errNS` after one line. -/
def C2scall2 : StreamCall := fun r =>
  if r.model = "bad" then (["data: x"], some C2errNS) else (["data: y"], none)

/-- Fixture: an error text holding rejection vocabulary but not "model". -/
def C3err : BackendError := ⟨"invalid request", none⟩

/-- Fixture: a call that always fails with `C3err`. -/
def C3call : OaiRequest → Except BackendError OaiResponse := fun _ => .error C3err

/-- Fixture: a failure text naming a nonexistent model. -/
def C3err2 : BackendError := ⟨"the model foo does not exist", none⟩

/-- Fixture: a call that always fails with `C3err2`. -/
def C3call2 : OaiRequest → Except BackendError OaiResponse := fun _ => .error C3err2

/-- Fixture: a backend response with a present but empty choices list. -/
def C4resp : OaiResponse := { choices := some [] }

/-- Fixture: a backend response with one tool call whose argument string is
not valid JSON. -/
def C4respW : OaiResponse :=
  { choices := some [⟨some ⟨none, none,
      some [⟨some "function", some "call1", some ⟨some "f", some "not json"⟩⟩]⟩,
      some "tool_calls"⟩] }

/-- Fixture: the translated form of `C4respW` under an always-failing JSON
decoder. -/
def C4outW : ClaudeResponse :=
  ⟨"fid", "message", "assistant",
   [.tool_use (some "call1") (some "f") JsonVal.emptyObj], "m", "tool_use", none⟩

/-- Fixture vendor-A request: a system prompt and one user turn. -/
def C6cr : ClaudeRequest :=
  { system := some (.str "You are terse."), messages := [⟨"user", .str "2+2?"⟩] }

/-- Fixture backend response: one choice answering "4". -/
def C6resp : OaiResponse :=
  { choices := some [⟨some ⟨some "4", none, none⟩, some "stop"⟩] }

/-- Fixture: a tool-result content block with id "id1" and result "ok". -/
def C7block_tr : CBlock := .mk (some "tool_result") none (some "id1") (some (.str "ok"))

/-- Fixture: a sibling free-text block holding only whitespace. -/
def C7block_ws : CBlock := .mk (some "text") (some " ") none none

/-- Fixture message: a tool result next to a whitespace-only text part. -/
def C7msg : CMessage := ⟨"user", .blocks [C7block_tr, C7block_ws]⟩

/-- Fixture message for the C7 witness: a tool result next to real text. -/
def C7msg2 : CMessage :=
  ⟨"user", .blocks [C7block_tr, .mk (some "text") (some "done") none none]⟩

/-! ## Theorems -/

/-- C8: the finish_reason-to-stop_reason mapping is a total deterministic
function sending "stop" to "end_turn", "length" to "max_tokens",
"content_filter" to "content_filtered", "tool_calls" and "function_call" to
"tool_use", and every other value, including a missing finish_reason, to
"end_turn". -/
theorem C8_finish_reason_mapping (r : Option String) :
    map_finish_reason r =
      if r = some "stop" then "end_turn"
      else if r = some "length" then "max_tokens"
      else if r = some "content_filter" then "content_filtered"
      else if r = some "tool_calls" then "tool_use"
      else if r = some "function_call" then "tool_use"
      else "end_turn" := by
  cases r with
  | none => rfl
  | some s =>
    by_cases h1 : s = "stop"
    · simp [map_finish_reason, finish_reason_mapping, List.lookup, h1]
    by_cases h2 : s = "length"
    · simp [map_finish_reason, finish_reason_mapping, List.lookup, h2]
    by_cases h3 : s = "content_filter"
    · simp [map_finish_reason, finish_reason_mapping, List.lookup, h3]
    by_cases h4 : s = "tool_calls"
    · simp [map_finish_reason, finish_reason_mapping, List.lookup, h4]
    by_cases h5 : s = "function_call"
    · simp [map_finish_reason, finish_reason_mapping, List.lookup, h5]
    have b1 : (s == "stop") = false := by simp [h1]
    have b2 : (s == "length") = false := by simp [h2]
    have b3 : (s == "content_filter") = false := by simp [h3]
    have b4 : (s == "tool_calls") = false := by simp [h4]
    have b5 : (s == "function_call") = false := by simp [h5]
    simp [map_finish_reason, finish_reason_mapping, List.lookup,
      b1, b2, b3, b4, b5, h1, h2, h3, h4, h5]

/-- C9: a backend response with a usage object translates with
prompt_tokens renamed to input_tokens and completion_tokens renamed to
output_tokens; a backend response without a usage key translates with no
usage field at all. -/
theorem C9_usage_renamed_or_omitted (json_loads : String → Option JsonVal)
    (tr : APITranslator) (resp : OaiResponse) (original_model : Option String)
    (fresh_id : String) (out : ClaudeResponse)
    (h : translate_response_to_claude json_loads tr resp original_model fresh_id = some out) :
    (resp.usage = none → out.usage = none) ∧
    (∀ u, resp.usage = some u →
      out.usage = some ⟨u.prompt_tokens.getD 0, u.completion_tokens.getD 0⟩) := by
  revert h
  unfold translate_response_to_claude
  cases hc : resp.choices.getD [{}] with
  | nil => intro h; simp at h
  | cons c rest =>
    intro h
    simp only [Option.some.injEq] at h
    subst h
    constructor
    · intro hu; simp [hu]
    · intro u hu; simp [hu]

/-- C9 witness: a concrete backend response carrying usage
`{prompt_tokens := 3, completion_tokens := 5}` translates to a response
whose usage is `{input_tokens := 3, output_tokens := 5}`. -/
theorem C9_usage_renamed_or_omitted_witness :
    translate_response_to_claude (fun _ => none) ⟨"m", 409600, 409600⟩
        { usage := some ⟨some 3, some 5⟩ } none "msg_x" =
      some ⟨"msg_x", "message", "assistant", [], "m", "end_turn", some ⟨3, 5⟩⟩ ∧
    (some ⟨3, 5⟩ : Option CUsage) = some ⟨3, 5⟩ := by
  refine ⟨rfl, ?_⟩
  exact (C9_usage_renamed_or_omitted (fun _ => none) ⟨"m", 409600, 409600⟩
    { usage := some ⟨some 3, some 5⟩ } none "msg_x"
    ⟨"msg_x", "message", "assistant", [], "m", "end_turn", some ⟨3, 5⟩⟩ rfl).2
    ⟨some 3, some 5⟩ rfl

/-- C5: for every wire-format-A request, the outbound wire-format-B request
assembled by the `/v1/messages` endpoint (translation followed by the
streaming-flag restoration of lines 766-768) has its streaming flag equal to
the caller's original streaming request flag (absent meaning false). -/
theorem C5_stream_flag_mirrored (tr : APITranslator) (claude_request : ClaudeRequest)
    (resolved_model : String) :
    (create_message_outbound tr claude_request resolved_model).stream =
      claude_request.stream.getD false := by
  unfold create_message_outbound
  cases h : claude_request.stream.getD false <;>
    simp [h, translate_request_to_openai]

/-- C1: the model resolver follows a fixed precedence chain.  A model string
containing '/' selects the named active backend (a client error when no such
backend exists), with the right part as the concrete model, overriding any
stored caller preference; without '/', a stored caller backend preference
wins; else the registry default backend; a registry with no backends at all
yields the statically configured fallback backend directly; and a concrete
model name still empty after these steps becomes the resolved backend's
default_model, else the system-wide default model. -/
theorem C1_model_resolution_precedence (reg : Registry) (config : ProxyConfig)
    (user_info : UserInfo) (momn : Option String) (mn : String) :
    -- slash form, backend short name unknown or inactive: client error (400)
    (strIsEmpty mn = false → strContainsChar mn '/' = true →
      get_backend_by_short_name reg (splitSlashOnce mn).1 = none →
      resolve_backend_and_model reg config (some mn) user_info =
        .error ⟨400, "Backend '" ++ (splitSlashOnce mn).1 ++ "' not found or inactive"⟩) ∧
    -- slash form, active backend: wins regardless of the stored preference;
    -- the right part is the concrete model, an empty right part filled in
    -- from the backend default, else the system default
    (∀ b, strIsEmpty mn = false → strContainsChar mn '/' = true →
      get_backend_by_short_name reg (splitSlashOnce mn).1 = some b →
      resolve_backend_and_model reg config (some mn) user_info =
        .ok (b.toR,
          (if strIsEmpty (splitSlashOnce mn).2 then strOr b.default_model config.openai_model
           else (splitSlashOnce mn).2),
          clientFor config b)) ∧
    -- no slash form, stored caller preference resolves: the preference wins
    (∀ k b, (pyStrTruthy momn && strContainsChar (momn.getD "") '/') = false →
      user_info.api_key_id = some k → k ≠ 0 →
      get_user_backend reg k = some b →
      resolve_backend_and_model reg config momn user_info =
        .ok (b.toR, resolveModelFor config b momn, clientFor config b)) ∧
    -- no slash form, no usable preference: the registry default backend
    (∀ b, (pyStrTruthy momn && strContainsChar (momn.getD "") '/') = false →
      (user_info.api_key_id.getD 0 = 0 ∨
        get_user_backend reg (user_info.api_key_id.getD 0) = none) →
      get_default_backend reg = some b →
      resolve_backend_and_model reg config momn user_info =
        .ok (b.toR, resolveModelFor config b momn, clientFor config b)) ∧
    -- registry with no backends at all: the static fallback, directly
    ((pyStrTruthy momn && strContainsChar (momn.getD "") '/') = false →
      reg.backends = [] →
      resolve_backend_and_model reg config momn user_info =
        .ok (fallbackBackend config, strOr momn config.openai_model,
             ClientRef.global_client)) ∧
    -- the final fill-in of a still-empty concrete model name
    (∀ b, resolveModelFor config b none = strOr b.default_model config.openai_model ∧
      resolveModelFor config b (some "") = strOr b.default_model config.openai_model ∧
      ∀ s, strIsEmpty s = false → resolveModelFor config b (some s) = s) := by
  refine ⟨?_, ?_, ?_, ?_, ?_, ?_⟩
  · intro hne hsl hlook
    simp [resolve_backend_and_model, pyStrTruthy, hne, hsl, hlook]
  · intro b hne hsl hlook
    simp only [resolve_backend_and_model, pyStrTruthy, Option.getD_some, hne, hsl,
      Bool.and_self, if_pos, hlook]
    simp [resolveModelFor, pyStrTruthy]
    cases he : strIsEmpty (splitSlashOnce mn).2 <;> simp [he]
  · intro k b hsl hk hk0 hub
    have hkd : user_info.api_key_id.getD 0 = k := by simp [hk]
    simp [resolve_backend_and_model, hsl, hkd, hk0, hub]
  · intro b hsl hpref hdef
    rcases hpref with h0 | hnone
    · simp [resolve_backend_and_model, hsl, h0, hdef]
    · simp [resolve_backend_and_model, hsl, hnone, hdef]
  · intro hsl hemp
    have hub : ∀ k, get_user_backend reg k = none := by
      intro k
      unfold get_user_backend
      cases reg.api_key_backend.lookup k <;> simp [hemp]
    have hdef : get_default_backend reg = none := by
      simp [get_default_backend, minIdActiveBackend, hemp]
    simp [resolve_backend_and_model, hsl, hub, hdef]
  · intro b
    refine ⟨rfl, rfl, ?_⟩
    intro s hs
    simp [resolveModelFor, pyStrTruthy, hs]

/-- C1 witness: in a registry holding an active backend "acme" (id 1, default
model "am") and an active default backend "zhipu" (id 2), with the caller's
preference pointing at "zhipu", the slash form "acme/gpt-x" resolves to
backend "acme" with model "gpt-x" in spite of the preference; without a
model, the preference "zhipu" wins; the slash form with an unknown backend
is a 400 client error; an empty registry yields the static fallback. -/
theorem C1_model_resolution_precedence_witness :
    resolve_backend_and_model C1reg C1cfg (some "acme/gpt-x") C1user =
      .ok ((C1acme).toR, "gpt-x", clientFor C1cfg C1acme) ∧
    resolve_backend_and_model C1reg C1cfg none C1user =
      .ok ((C1zhipu).toR, resolveModelFor C1cfg C1zhipu none, clientFor C1cfg C1zhipu) ∧
    resolve_backend_and_model C1reg C1cfg (some "nosuch/m") C1user =
      .error ⟨400, "Backend 'nosuch' not found or inactive"⟩ ∧
    resolve_backend_and_model ⟨[], []⟩ C1cfg none C1user =
      .ok (fallbackBackend C1cfg, "gm", ClientRef.global_client) := by
  have h := C1_model_resolution_precedence C1reg C1cfg C1user none "acme/gpt-x"
  have h2 := C1_model_resolution_precedence C1reg C1cfg C1user none "nosuch/m"
  have h3 := C1_model_resolution_precedence ⟨[], []⟩ C1cfg C1user none ""
  refine ⟨?_, ?_, ?_, ?_⟩
  · have := h.2.1 C1acme (by decide) (by decide) (by decide)
    simpa using this
  · exact h.2.2.1 5 C1zhipu (by decide) rfl (by decide) (by decide)
  · exact h2.1 (by decide) (by decide) (by decide)
  · have := h3.2.2.2.2.1 (by decide) rfl
    simpa using this

/-- Helper: a pure-text message converts to exactly one outbound turn with
the same role and the flattened text. -/
theorem convert_pure_text (m : CMessage) (h : pureTextMsg m = true) :
    convert_message_to_openai m = [⟨m.role, flattenContent m.content, none⟩] := by
  obtain ⟨role, content⟩ := m
  cases content with
  | str s => rfl
  | blocks bs =>
    simp only [pureTextMsg] at h
    have hfilter : bs.filter (fun b => b.btype == some "tool_result") = [] := by
      rw [List.filter_eq_nil_iff]
      intro b hb
      have hb' := List.all_eq_true.mp h b hb
      simp only [beq_iff_eq] at hb' ⊢
      simp [hb']
    simp [convert_message_to_openai, hfilter, flattenContent]

/-- Helper: flattening a map of singleton-producing functions is a map. -/
theorem flatten_map_singleton {α β : Type} (f : α → List β) (g : α → β) (l : List α)
    (h : ∀ a ∈ l, f a = [g a]) : (l.map f).flatten = l.map g := by
  induction l with
  | nil => rfl
  | cons x xs ih =>
    simp only [List.map_cons, List.flatten_cons, h x (by simp)]
    rw [ih (fun a ha => h a (by simp [ha]))]
    rfl

/-- C6: for a pure-text, no-tool conversation, translating the wire-A
request to wire-B preserves the order of the message turns (a possible
system turn first, then one outbound turn per inbound turn, in order) and
all content-bearing text (each turn's text parts joined by newline), and
translating a pure-text wire-B response back to wire-A yields an assistant
message whose single text block carries the backend text unchanged. -/
theorem C6_pure_text_round_trip (tr : APITranslator) (claude_request : ClaudeRequest)
    (json_loads : String → Option JsonVal) (resp : OaiResponse)
    (original_model : Option String) (fresh_id : String)
    (choice : OChoice) (msg : OChoiceMessage) (s : String)
    (hpure : claude_request.messages.all pureTextMsg = true)
    (hchoices : resp.choices = some [choice])
    (hmsg : choice.message = some msg)
    (hcontent : msg.content = some s)
    (hne : strIsEmpty s = false)
    (hreason : msg.reasoning_content = none)
    (htools : msg.tool_calls = none) :
    (translate_request_to_openai tr claude_request).messages =
      (match claude_request.system with
       | none => []
       | some sc => [OMsg.mk "system" (flattenContent sc) none]) ++
        claude_request.messages.map (fun m => OMsg.mk m.role (flattenContent m.content) none) ∧
    ∃ out, translate_response_to_claude json_loads tr resp original_model fresh_id = some out ∧
      out.content = [CRespBlock.text s] ∧ out.role = "assistant" := by
  constructor
  · simp only [translate_request_to_openai]
    rw [flatten_map_singleton convert_message_to_openai
      (fun m => OMsg.mk m.role (flattenContent m.content) none) claude_request.messages
      (fun m hm => convert_pure_text m (List.all_eq_true.mp hpure m hm))]
  · have hresp : translate_response_to_claude json_loads tr resp original_model fresh_id =
        some { id := resp.id.getD fresh_id, ty := "message", role := "assistant",
               content := [CRespBlock.text s],
               model := strOr original_model tr.openai_model,
               stop_reason := map_finish_reason choice.finish_reason,
               usage := resp.usage.map (fun u =>
                 ⟨u.prompt_tokens.getD 0, u.completion_tokens.getD 0⟩) } := by
      simp [translate_response_to_claude, hchoices, hmsg, hcontent, hreason, htools, hne,
        strIsEmpty]
      exact fun hd => by simp [strIsEmpty, hd] at hne
    exact ⟨_, hresp, rfl, rfl⟩

/-- C6 witness: the request `{system: "You are terse.", messages:
[{user, "2+2?"}]}` translates to the system turn followed by the user turn,
and a backend response answering "4" translates back to a single text
block "4". -/
theorem C6_pure_text_round_trip_witness :
    (translate_request_to_openai trM C6cr).messages =
      [OMsg.mk "system" "You are terse." none, OMsg.mk "user" "2+2?" none] ∧
    (∃ out, translate_response_to_claude (fun _ => none) trM C6resp (some "claude-x") "fid" =
        some out ∧ out.content = [CRespBlock.text "4"] ∧ out.role = "assistant") := by
  have h := C6_pure_text_round_trip trM C6cr (fun _ => none) C6resp (some "claude-x") "fid"
    ⟨some ⟨some "4", none, none⟩, some "stop"⟩ ⟨some "4", none, none⟩ "4"
    (by decide) rfl rfl rfl (by decide) rfl rfl
  exact ⟨h.1.trans rfl, h.2⟩

/-- C7 counterexample: a message whose content holds a tool-result part and
a whitespace-only sibling text part converts to the tool turn alone — no
trailing user turn is emitted, against the claim's unconditional "followed
by one outbound user turn containing the sibling free-text parts". -/
theorem C7_counterexample :
    convert_message_to_openai C7msg = [OMsg.mk "tool" "ok" (some "id1")] ∧
    convert_message_to_openai C7msg ≠
      [OMsg.mk "tool" "ok" (some "id1"), OMsg.mk "user" " " none] :=
  ⟨rfl, by decide⟩

/-- C7 amended: a message whose content list contains tool-result parts is
converted to one outbound turn per tool result, role "tool", carrying the
tool-call id and the flattened result content, followed by one outbound user
turn containing the sibling free-text parts joined by newline — the user
turn being emitted only when that joined text is nonempty after stripping
whitespace, and omitted otherwise. -/
theorem C7_tool_result_expansion (m : CMessage) (bs : List CBlock)
    (hc : m.content = .blocks bs)
    (htr : bs.filter (fun b => b.btype == some "tool_result") ≠ []) :
    convert_message_to_openai m =
      (bs.filter (fun b => b.btype == some "tool_result")).map (fun tr =>
        OMsg.mk "tool" (extract_tool_result_content (tr.content.getD (.str "")))
          tr.tool_use_id) ++
      (if strIsEmpty (pyStrip (String.intercalate "\n"
          ((bs.filter (fun b => b.btype == some "text")).map (fun b => b.text.getD "")))) then
        []
      else
        [OMsg.mk "user" (String.intercalate "\n"
          ((bs.filter (fun b => b.btype == some "text")).map (fun b => b.text.getD ""))) none]) := by
  obtain ⟨role, content⟩ := m
  simp only at hc
  subst hc
  simp only [convert_message_to_openai]
  rw [if_neg (by simpa [List.isEmpty_iff] using htr)]
  cases htb : bs.filter (fun b => b.btype == some "text") with
  | nil => simp [htb]; decide
  | cons x xs => simp [htb]

/-- C7 witness: a tool result with id "id1" and result "ok" next to the text
part "done" converts to the tool turn followed by the user turn "done". -/
theorem C7_tool_result_expansion_witness :
    convert_message_to_openai C7msg2 =
      [OMsg.mk "tool" "ok" (some "id1"), OMsg.mk "user" "done" none] := by
  have hf : List.filter (fun b => b.btype == some "tool_result")
      [C7block_tr, CBlock.mk (some "text") (some "done") none none] = [C7block_tr] := rfl
  have h := C7_tool_result_expansion C7msg2
    [C7block_tr, CBlock.mk (some "text") (some "done") none none] rfl
    (by rw [hf]; exact List.cons_ne_nil _ _)
  exact h.trans (by decide)

/-- C4 counterexample: a backend response whose choices list is present but
empty makes the translator raise (an IndexError from
`openai_response.get("choices", [{}])[0]`), against the claim that any
backend response, including one with an empty choices list, degrades to safe
defaults rather than raising. -/
theorem C4_counterexample :
    translate_response_to_claude (fun _ => none) trM C4resp none "fid" = none := rfl

/-- C4 amended: the translator never raises for malformed optional fields,
with one exception: a present-but-empty choices list raises.  On every other
backend response it returns a result; every tool call whose argument string
fails to decode yields a tool_use block with an empty parameter object; and
a missing choices list degrades to an empty content list with stop_reason
"end_turn". -/
theorem C4_translator_degrades (json_loads : String → Option JsonVal)
    (tr : APITranslator) (resp : OaiResponse) (original_model : Option String)
    (fresh_id : String) :
    (resp.choices ≠ some [] →
      (translate_response_to_claude json_loads tr resp original_model fresh_id).isSome = true) ∧
    ((∀ s, json_loads s = none) → ∀ out,
      translate_response_to_claude json_loads tr resp original_model fresh_id = some out →
      ∀ i n v, CRespBlock.tool_use i n v ∈ out.content → v = JsonVal.emptyObj) ∧
    (resp.choices = none → ∀ out,
      translate_response_to_claude json_loads tr resp original_model fresh_id = some out →
      out.content = [] ∧ out.stop_reason = "end_turn") := by
  refine ⟨?_, ?_, ?_⟩
  · intro hne
    cases hc : resp.choices with
    | none => simp [translate_response_to_claude, hc]
    | some l =>
      cases l with
      | nil => exact absurd hc hne
      | cons c rest => simp [translate_response_to_claude, hc]
  · intro hloads out hout i n v hmem
    revert hout
    unfold translate_response_to_claude
    cases hc : resp.choices.getD [{}] with
    | nil => intro hout; simp at hout
    | cons c rest =>
      intro hout
      simp only [Option.some.injEq] at hout
      subst hout
      simp only [hloads] at hmem
      rcases List.mem_append.mp hmem with h1 | h2
      · revert h1
        split <;> intro h1 <;> simp at h1
      · rcases List.mem_filterMap.mp h2 with ⟨tc, _, heq⟩
        revert heq
        split <;> intro heq
        · simp only [Option.some.injEq] at heq
          cases heq
          rfl
        · simp at heq
  · intro hc out hout
    revert hout
    unfold translate_response_to_claude
    rw [hc]
    intro hout
    simp only [Option.getD_none, Option.some.injEq] at hout
    subst hout
    exact ⟨rfl, rfl⟩

/-- C4 witness: a response with one tool call whose argument string fails to
decode translates successfully, carrying a tool_use block with the empty
parameter object. -/
theorem C4_translator_degrades_witness :
    C4respW.choices ≠ some [] ∧
    (translate_response_to_claude (fun _ => none) trM C4respW none "fid").isSome = true ∧
    translate_response_to_claude (fun _ => none) trM C4respW none "fid" = some C4outW := by
  refine ⟨by simp [C4respW], ?_, rfl⟩
  exact (C4_translator_degrades (fun _ => none) trM C4respW none "fid").1 (by simp [C4respW])

/-- C3 counterexample: with a client-specified model, the failure text
"invalid request" satisfies the claim's classification (it contains
"invalid"), yet the code does not classify it as a model error — the code
additionally requires the substring "model" — and the invoker issues no
retry for it. -/
theorem C3_counterexample :
    claimed_model_error true C3err = true ∧
    nonstreaming_is_model_error C3err = false ∧
    (create_message_invoke ClientRef.global_client C3call true "fb" reqM).2 =
      [(ClientRef.global_client, reqM)] := by
  refine ⟨by decide, by decide, rfl⟩

/-- C3 amended: in the non-streaming invoker a failure is classified (and
retried) as a model error iff the caller supplied an explicit model name and
either the lowercased error text contains "model" together with one of
"not found" / "does not exist" / "invalid", or the lowercased backend
response body contains "model" together with one of "not found" /
"does not exist" / "no access". -/
theorem C3_model_error_classification (e : BackendError) (csm : Bool)
    (client : ClientRef) (call : OaiRequest → Except BackendError OaiResponse)
    (fallback_model : String) (req : OaiRequest)
    (h : call req = .error e) :
    nonstreaming_is_model_error e = amended_model_error e ∧
    ((create_message_invoke client call csm fallback_model req).2.length = 2 ↔
      (csm && amended_model_error e) = true) := by
  refine ⟨rfl, ?_⟩
  have hsame : (csm && amended_model_error e) = (csm && nonstreaming_is_model_error e) := rfl
  rw [hsame]
  unfold create_message_invoke
  rw [h]
  cases hcls : csm && nonstreaming_is_model_error e with
  | true => simp [hcls]
  | false => simp [hcls]

/-- C3 witness: the failure text "the model foo does not exist" with a
client-specified model is classified as a model error and triggers the
retry (two issued requests). -/
theorem C3_model_error_classification_witness :
    C3call2 reqM = .error C3err2 ∧
    (create_message_invoke ClientRef.global_client C3call2 true "fb" reqM).2.length = 2 :=
  ⟨rfl, (C3_model_error_classification C3err2 true ClientRef.global_client C3call2
      "fb" reqM rfl).2.mpr (by decide)⟩

/-- C2 counterexample: in the streaming invoker, a failure classified as a
model error, with a client-specified model whose resolved value already
equals the fallback model, triggers no retry at all (the trace holds only
the original request and a terminal error event is emitted), against the
claim that a classified model error triggers exactly one retry. -/
theorem C2_counterexample :
    (true && streaming_is_model_error C2err) = true ∧
    (stream_generator C2scall true
      (create_message_fallback_model ⟨"b", "http://b", "kb", some "m"⟩ C2cfg) C2req).2 =
      [C2req] ∧
    (stream_generator C2scall true
      (create_message_fallback_model ⟨"b", "http://b", "kb", some "m"⟩ C2cfg) C2req).1 =
      [.errorEvent "model m not found"] :=
  ⟨by decide, rfl, rfl⟩

/-- C2 amended: in the non-streaming invoker, a failure classified as a
model error (caller-specified model plus the code's classifier) triggers
exactly one retry with the fallback model (the resolved backend's
default_model, else the global default), whose outcome — success or failure
— is returned unmodified and never retried again, while an unclassified
failure propagates after the single call; in the streaming invoker the same
holds except that the retry additionally requires the fallback model to
differ from the failed request's model — when they coincide, or the failure
is not classified, no retry occurs and a terminal error event is emitted
after the already-forwarded lines. -/
theorem C2_fallback_once (client : ClientRef)
    (call : OaiRequest → Except BackendError OaiResponse) (scall : StreamCall)
    (backend : RBackend) (config : ProxyConfig) (csm : Bool) (req : OaiRequest)
    (e : BackendError) :
    (call req = .error e → (csm && nonstreaming_is_model_error e) = true →
      create_message_invoke client call csm (create_message_fallback_model backend config) req =
        (call { req with model := create_message_fallback_model backend config },
         [(client, req),
          (client, { req with model := create_message_fallback_model backend config })])) ∧
    (call req = .error e → (csm && nonstreaming_is_model_error e) = false →
      create_message_invoke client call csm (create_message_fallback_model backend config) req =
        (.error e, [(client, req)])) ∧
    ((scall req).2 = some e → (csm && streaming_is_model_error e) = true →
      req.model ≠ create_message_fallback_model backend config →
      (stream_generator scall csm (create_message_fallback_model backend config) req).2 =
        [req, { req with model := create_message_fallback_model backend config }]) ∧
    ((scall req).2 = some e → (csm && streaming_is_model_error e) = true →
      req.model = create_message_fallback_model backend config →
      stream_generator scall csm (create_message_fallback_model backend config) req =
        ((scall req).1.map StreamChunk.line ++ [.errorEvent e.msg], [req])) ∧
    ((scall req).2 = some e → (csm && streaming_is_model_error e) = false →
      stream_generator scall csm (create_message_fallback_model backend config) req =
        ((scall req).1.map StreamChunk.line ++ [.errorEvent e.msg], [req])) := by
  refine ⟨?_, ?_, ?_, ?_, ?_⟩
  · intro h hcls
    unfold create_message_invoke
    rw [h]
    simp [hcls]
  · intro h hcls
    unfold create_message_invoke
    rw [h]
    simp [hcls]
  · intro h hcls hne
    unfold stream_generator
    simp only [h]
    have hb : (req.model != create_message_fallback_model backend config) = true := by
      simpa [bne_iff_ne] using hne
    simp only [hcls, hb, Bool.and_true, if_true]
    cases h2 : (scall { req with model := create_message_fallback_model backend config }).2 <;>
      simp [h2]
  · intro h hcls heq
    unfold stream_generator
    simp only [h]
    have hb : (req.model != create_message_fallback_model backend config) = false := by
      simp [bne, heq]
    simp [hcls, hb]
  · intro h hcls
    unfold stream_generator
    simp only [h]
    simp [hcls]

/-- C2 witness: a non-streaming failure naming a missing model triggers one
retry with the fallback model "fbm", and a classified streaming failure on
model "bad" with fallback "fbm" opens exactly one retry stream. -/
theorem C2_fallback_once_witness :
    C2call C2reqBad = .error C2errNS ∧
    (true && nonstreaming_is_model_error C2errNS) = true ∧
    create_message_invoke ClientRef.global_client C2call true
        (create_message_fallback_model C2backend C2cfg) C2reqBad =
      (C2call { C2reqBad with model := "fbm" },
       [(ClientRef.global_client, C2reqBad),
        (ClientRef.global_client, { C2reqBad with model := "fbm" })]) ∧
    (C2scall2 C2reqBad).2 = some C2errNS ∧
    (stream_generator C2scall2 true (create_message_fallback_model C2backend C2cfg)
        C2reqBad).2 =
      [C2reqBad, { C2reqBad with model := "fbm" }] := by
  have h := C2_fallback_once ClientRef.global_client C2call C2scall2 C2backend C2cfg
    true C2reqBad C2errNS
  refine ⟨rfl, by decide, ?_, rfl, ?_⟩
  · exact h.1 rfl (by decide)
  · exact h.2.2.1 rfl (by decide) (by decide)

/-- C10: when the non-streaming invoker retries a failure classified as a
model error, the retried request is identical to the failed one in every
field except model (which becomes the fallback model), and it is issued
through the same backend client. -/
theorem C10_retry_same_request_and_client (client : ClientRef)
    (call : OaiRequest → Except BackendError OaiResponse)
    (fallback_model : String) (req : OaiRequest) (e : BackendError)
    (h : call req = .error e)
    (hcls : nonstreaming_is_model_error e = true) :
    ∃ retry_req,
      (create_message_invoke client call true fallback_model req).2 =
        [(client, req), (client, retry_req)] ∧
      retry_req.model = fallback_model ∧
      retry_req.messages = req.messages ∧
      retry_req.tools = req.tools ∧
      retry_req.max_tokens = req.max_tokens ∧
      retry_req.temperature = req.temperature ∧
      retry_req.top_p = req.top_p ∧
      retry_req.stream = req.stream ∧
      retry_req.stop = req.stop := by
  refine ⟨{ req with model := fallback_model }, ?_, rfl, rfl, rfl, rfl, rfl, rfl, rfl, rfl⟩
  unfold create_message_invoke
  rw [h]
  simp [hcls]

/-- C10 witness: retrying the failed request for model "bad" issues, through
the same client, the same request with only the model replaced by "fbm". -/
theorem C10_retry_same_request_and_client_witness :
    C2call C2reqBad = .error C2errNS ∧
    nonstreaming_is_model_error C2errNS = true ∧
    (create_message_invoke ClientRef.global_client C2call true "fbm" C2reqBad).2 =
      [(ClientRef.global_client, C2reqBad),
       (ClientRef.global_client, { C2reqBad with model := "fbm" })] := by
  refine ⟨rfl, by decide, ?_⟩
  obtain ⟨r, h1, hm, h3, h4, h5, h6, h7, h8, h9⟩ :=
    C10_retry_same_request_and_client ClientRef.global_client C2call "fbm" C2reqBad
      C2errNS rfl (by decide)
  rw [h1]
  obtain ⟨rm, rmsg, rt, rmt, rtemp, rtp, rst, rstop⟩ := r
  simp_all [C2reqBad]

end Infiniproxy
